import Mathlib

/-
Shallow embedding of the monitoring core of the ethereum-exporter repository
(package `monitor`: `Monitor.start`, `Monitor.gatherMetrics`, `Monitor.setupApis`,
`Monitor.setupConsul`).

Modelling conventions:
* `*big.Int` block numbers and `int` values are modelled as `Int`
  (gauge values are emitted through `float32` conversions in Go; the claims
  under consideration are about which gauges are emitted and their integer
  values, so gauges carry `Int` values here).
* Timestamps are `Int` seconds; `block.Timestamp.Sub(lastBlock.Timestamp).Seconds()`
  becomes integer subtraction, which may be zero or negative, as in the source.
* Fallible collaborator calls (`EthClient.PeerCount`, `EthClient.BlockNumber`,
  `EthClient.BlockByNumber`, `Etherscan.BlockNumber`, `EthClient.Chain`) are
  oracles: each round is parametrised by the outcome of each call.  A failed
  `BlockNumber()` returns a nil `*big.Int`, modelled as the `Option Int`
  argument `none` that `gatherMetrics` passes on to `BlockByNumber`.
* Side effects (gauge emission, collaborator invocations, log lines) are
  recorded as explicit event lists so that the theorems can speak about which
  steps were attempted and what was reported.
* `go-multierror` aggregation is modelled as the list of appended cause
  messages; its rendered `Error()` text is modelled by `multierrorText`,
  which keeps the claim-relevant property of the real formatter: every
  appended cause's message occurs verbatim as a contiguous substring of the
  combined text.  `strings.Contains(err.Error(), "connection refused")`
  becomes a decidable infix test on that text.
* The `select` loop of `Monitor.start` is driven by an explicit event list
  (`Event.tick` for the `time.After` case, `Event.done` for the `ctx.Done()`
  case).  Each case handler reports, in `TickOut.stop`, whether it executed a
  `return` statement; the loop stops processing further events exactly when a
  handler returned.  In the source neither case contains a `return`.
-/

namespace EthereumExporter

/-- A block as retained in `Monitor.lastBlock`: number and timestamp (seconds). -/
structure Block where
  number : Int
  timestamp : Int
deriving DecidableEq

/-- The configuration fields of `Config` that the embedded code consults.
`SyncThreshold` is a Go `int`. -/
structure Config where
  syncThreshold : Int
deriving DecidableEq

/-- The mutable monitor fields touched by the polling loop:
`m.connected`, `m.synced`, `m.lastBlock`. -/
structure MonitorState where
  connected : Bool
  synced : Bool
  lastBlock : Option Block
deriving DecidableEq

/-- One `metrics.SetGaugeWithLabels` emission (name and integer value). -/
structure GaugeEvent where
  name : String
  value : Int
deriving DecidableEq

/-- One collaborator invocation performed by the loop body.
`blockByNumberCall` records the argument passed (the possibly-nil
`blockNumber`), `chainCall` is `EthClient.Chain()` inside `setupApis`. -/
inductive Call where
  | peersCall
  | blockNumberCall
  | blockByNumberCall (arg : Option Int)
  | etherscanCall
  | chainCall
deriving DecidableEq

/-- Log lines produced by `Monitor.start` (including the `fmt.Printf`
state-transition report). -/
inductive LogEvent where
  | exportErrors (msgs : List String)
  | nodeMayBeDown
  | stateChanged (synced : Bool)
  | failedToConnect (e : String)
  | chainConnected
  | shuttingDown
deriving DecidableEq

/-- Outcomes of the four collaborator calls a gathering round can make.
`blockByNumber` is a function of its argument because the source invokes it
with whatever `blockNumber` pointer it has, including nil (`none`). -/
structure RoundOracle where
  peerCount : Except String Int
  blockNumber : Except String Int
  blockByNumber : Option Int → Except String Block
  etherscanBlockNumber : Except String Int

/-- Outcome of `EthClient.Chain()` during `setupApis`. -/
structure SetupOracle where
  chain : Except String String

/-- Everything the handler of one `time.After` tick may consult. -/
structure TickOracle where
  round : RoundOracle
  setup : SetupOracle

/-- One firing of a `select` case in `Monitor.start`. -/
inductive Event where
  | tick (o : TickOracle)
  | done

/-- Accumulator mirroring the local state of `gatherMetrics`: the `errors`
multierror, the gauges emitted so far, the calls performed so far, the
`blockNumber` local variable, and the two monitor fields the round mutates. -/
structure RoundAcc where
  errors : List String
  gauges : List GaugeEvent
  calls : List Call
  blockNumber : Option Int
  lastBlock : Option Block
  synced : Bool

/-- Result of one `gatherMetrics` round. -/
structure RoundOut where
  state : MonitorState
  errors : List String
  gauges : List GaugeEvent
  calls : List Call

/-- Result of handling one `select` event in `Monitor.start`.  `stop` records
whether the handler executed a `return` statement. -/
structure TickOut where
  state : MonitorState
  gauges : List GaugeEvent
  calls : List Call
  logs : List LogEvent
  stop : Bool
deriving DecidableEq

/-- Initial round accumulator: empty multierror, nothing emitted, the
`blockNumber` local not yet assigned, monitor fields as before the round. -/
def gatherInit (s : MonitorState) : RoundAcc :=
  { errors := [], gauges := [], calls := [], blockNumber := none,
    lastBlock := s.lastBlock, synced := s.synced }

/-- `gatherMetrics`, step "Peers": `m.ethClient.PeerCount()`; on error append
to the multierror, on success emit the `peers` gauge. -/
def gatherPeers (o : RoundOracle) (a : RoundAcc) : RoundAcc :=
  let a := { a with calls := a.calls ++ [Call.peersCall] }
  match o.peerCount with
  | Except.error e => { a with errors := a.errors ++ [e] }
  | Except.ok peers => { a with gauges := a.gauges ++ [GaugeEvent.mk "peers" peers] }

/-- `gatherMetrics`, step "BlockNumber": `m.ethClient.BlockNumber()`; on error
append (the returned pointer stays nil), on success emit the `blockNumber`
gauge and retain the number. -/
def gatherBlockNumber (o : RoundOracle) (a : RoundAcc) : RoundAcc :=
  let a := { a with calls := a.calls ++ [Call.blockNumberCall] }
  match o.blockNumber with
  | Except.error e => { a with errors := a.errors ++ [e] }
  | Except.ok n =>
      { a with gauges := a.gauges ++ [GaugeEvent.mk "blockNumber" n], blockNumber := some n }

/-- `gatherMetrics`, step "Block": `m.ethClient.BlockByNumber(blockNumber)` is
invoked unconditionally with the retained (possibly nil) number; on error
append and leave `lastBlock` unchanged; on success emit `blocktime` when a
previous block exists and overwrite `lastBlock`. -/
def gatherBlock (o : RoundOracle) (a : RoundAcc) : RoundAcc :=
  let a := { a with calls := a.calls ++ [Call.blockByNumberCall a.blockNumber] }
  match o.blockByNumber a.blockNumber with
  | Except.error e => { a with errors := a.errors ++ [e] }
  | Except.ok block =>
      let a :=
        match a.lastBlock with
        | some lb =>
            { a with gauges := a.gauges ++ [GaugeEvent.mk "blocktime" (block.timestamp - lb.timestamp)] }
        | none => a
      { a with lastBlock := some block }

/-- `gatherMetrics`, step "Etherscan": guarded by `blockNumber != nil`;
on success emit `blocksbehind = remote - local` and recompute
`m.synced = (|blocksbehind| <= SyncThreshold)`. -/
def gatherEtherscan (cfg : Config) (o : RoundOracle) (a : RoundAcc) : RoundAcc :=
  match a.blockNumber with
  | none => a
  | some bn =>
      let a := { a with calls := a.calls ++ [Call.etherscanCall] }
      match o.etherscanBlockNumber with
      | Except.error e => { a with errors := a.errors ++ [e] }
      | Except.ok realBlockNumber =>
          let blocksbehind := realBlockNumber - bn
          let a := { a with gauges := a.gauges ++ [GaugeEvent.mk "blocksbehind" blocksbehind] }
          { a with synced := if (blocksbehind.natAbs : Int) ≤ cfg.syncThreshold then true else false }

/-- The accumulator after the four steps of `gatherMetrics` in source order. -/
def gatherAcc (cfg : Config) (s : MonitorState) (o : RoundOracle) : RoundAcc :=
  gatherEtherscan cfg o (gatherBlock o (gatherBlockNumber o (gatherPeers o (gatherInit s))))

/-- `Monitor.gatherMetrics`: the four steps in source order.  It never touches
`m.connected`; it returns the multierror (nil iff no cause was appended). -/
def gatherMetrics (cfg : Config) (s : MonitorState) (o : RoundOracle) : RoundOut :=
  let a := gatherAcc cfg s o
  { state := { connected := s.connected, synced := a.synced, lastBlock := a.lastBlock },
    errors := a.errors, gauges := a.gauges, calls := a.calls }

/-- The nil-pointer view of the `BlockNumber()` outcome: the number retained
for steps 3 and 4, `none` when the query failed. -/
def blockNumOpt (o : RoundOracle) : Option Int :=
  match o.blockNumber with
  | Except.ok n => some n
  | Except.error _ => none

/-- `"connection refused"`, the substring `Monitor.start` searches for. -/
def connectionRefusedChars : List Char := "connection refused".toList

/-- The cause items of the rendered `go-multierror` text, one
tab-bulleted line per appended cause. -/
def multierrorItems : List String → List Char
  | [] => []
  | m :: ms => "\n\t* ".toList ++ m.toList ++ multierrorItems ms

/-- Rendered `multierror.Error()` text: header, one line per cause, trailer.
Only the claim-relevant property matters: each cause message occurs verbatim
as a contiguous substring. -/
def multierrorText (msgs : List String) : List Char :=
  "errors occurred:".toList ++ multierrorItems msgs ++ "\n\n".toList

/-- The `switch chain` of `setupApis`: the explorer URL for the two
recognised chains, `none` otherwise. -/
def etherscanUrl (chain : String) : Option String :=
  if chain = "kovan" then
    some "https://kovan.etherscan.io/api?module=proxy&action=eth_blockNumber"
  else if chain = "foundation" then
    some "https://api.etherscan.io/api?module=proxy&action=eth_blockNumber"
  else none

/-- `Monitor.setupApis`: query the chain identifier; fail on transport error
or unrecognised chain; otherwise resolve the explorer URL. -/
def setupApis (o : SetupOracle) : Except String String :=
  match o.chain with
  | Except.error e => Except.error e
  | Except.ok chain =>
      match etherscanUrl chain with
      | some url => Except.ok url
      | none =>
          Except.error ("Chain " ++ chain ++ " not found. kovan and foundation are the only valid options")

/-- The `time.After` case of `Monitor.start`: if connected, run a gathering
round and post-process its error (log it, flip `connected` on a
"connection refused" substring, report a synced transition); if not
connected, run `setupApis` and flip `connected` on success.  No branch
executes a `return`. -/
def handleTick (cfg : Config) (s : MonitorState) (o : TickOracle) : TickOut :=
  if s.connected then
    let previousState := s.synced
    let r := gatherMetrics cfg s o.round
    if r.errors.isEmpty then
      { state := r.state, gauges := r.gauges, calls := r.calls, logs := [], stop := false }
    else
      let logs := [LogEvent.exportErrors r.errors]
      let nodeDown := decide (connectionRefusedChars <:+: multierrorText r.errors)
      let logs := if nodeDown then logs ++ [LogEvent.nodeMayBeDown] else logs
      let st := if nodeDown then { r.state with connected := false } else r.state
      let logs :=
        if previousState ≠ r.state.synced then logs ++ [LogEvent.stateChanged r.state.synced]
        else logs
      { state := st, gauges := r.gauges, calls := r.calls, logs := logs, stop := false }
  else
    match setupApis o.setup with
    | Except.error e =>
        { state := s, gauges := [], calls := [Call.chainCall],
          logs := [LogEvent.failedToConnect e], stop := false }
    | Except.ok _ =>
        { state := { s with connected := true }, gauges := [], calls := [Call.chainCall],
          logs := [LogEvent.chainConnected], stop := false }

/-- One `select` iteration of `Monitor.start`.  The `ctx.Done()` case only
logs "Monitor shutting down"; the source contains no `return` statement
there, so the handler does not stop the loop (`stop := false`). -/
def handleEvent (cfg : Config) (s : MonitorState) : Event → TickOut
  | Event.tick o => handleTick cfg s o
  | Event.done =>
      { state := s, gauges := [], calls := [], logs := [LogEvent.shuttingDown], stop := false }

/-- The `for { select { ... } }` loop of `Monitor.start`, driven by a finite
schedule of case firings; it stops early only if a case handler returned. -/
def runLoop (cfg : Config) (s : MonitorState) : List Event → MonitorState × List TickOut
  | [] => (s, [])
  | e :: es =>
      let out := handleEvent cfg s e
      if out.stop then (out.state, [out])
      else
        let rest := runLoop cfg out.state es
        (rest.1, out :: rest.2)

/-- Observable events of `Monitor.setupConsul`: a registration attempt with
its outcome, the failure log, the `time.Sleep` (in minutes), the success log,
and the give-up log. -/
inductive ConsulEvent where
  | attempt (ok : Bool)
  | failLog
  | sleep (minutes : Nat)
  | registeredLog
  | stopLog
deriving DecidableEq

/-- The `for i := 0; i < retries; i++` loop of `setupConsul`; `outcomes i`
tells whether the i-th `setupConsulImpl()` call succeeds.  On success: log
and return.  On failure: log and `time.Sleep(1 * time.Minute)`.  After the
loop: log that registration is abandoned. -/
def setupConsulLoop (outcomes : Nat → Bool) : Nat → Nat → List ConsulEvent
  | 0, _ => [ConsulEvent.stopLog]
  | n + 1, i =>
      if outcomes i then
        [ConsulEvent.attempt true, ConsulEvent.registeredLog]
      else
        ConsulEvent.attempt false :: ConsulEvent.failLog :: ConsulEvent.sleep 1 ::
          setupConsulLoop outcomes n (i + 1)

/-- `retries := 5` in `setupConsul`. -/
def consulRetries : Nat := 5

/-- `Monitor.setupConsul` as its trace of observable events. -/
def setupConsul (outcomes : Nat → Bool) : List ConsulEvent :=
  setupConsulLoop outcomes consulRetries 0

/-- Number of registration attempts in a `setupConsul` trace. -/
def attemptCount (t : List ConsulEvent) : Nat :=
  t.countP (fun e => match e with | ConsulEvent.attempt _ => true | _ => false)

/-- The trace of one failed attempt: attempt, failure log, one-minute sleep. -/
def failCycle : List ConsulEvent :=
  [ConsulEvent.attempt false, ConsulEvent.failLog, ConsulEvent.sleep 1]

/-- The full `setupConsul` trace under persistent failure: five failed
attempts, each followed by the one-minute backoff, then the give-up log. -/
def persistentFailureTrace : List ConsulEvent :=
  (List.replicate 5 failCycle).flatten ++ [ConsulEvent.stopLog]

/-- Whether a call event is the block-by-number query (with any argument). -/
def isBlockByNumberCall : Call → Bool
  | Call.blockByNumberCall _ => true
  | _ => false

/-- Whether a log line is the synced-state transition report. -/
def isStateChangedLog : LogEvent → Bool
  | LogEvent.stateChanged _ => true
  | _ => false

/-- The cause list contributed by one fallible call: its message on failure,
nothing on success. -/
def errOf {α : Type} : Except String α → List String
  | Except.error e => [e]
  | Except.ok _ => []

/-- Whether a call event is the peer-count query. -/
def isPeersCall : Call → Bool
  | Call.peersCall => true
  | _ => false

/-- Whether a call event is the block-number query. -/
def isBlockNumberCall : Call → Bool
  | Call.blockNumberCall => true
  | _ => false

/-- Whether a call event is the explorer (etherscan) query. -/
def isEtherscanCall : Call → Bool
  | Call.etherscanCall => true
  | _ => false

/-! ### Concrete inputs used by counterexamples and witnesses -/

def c1Cfg : Config := { syncThreshold := 5 }

def c1CexState : MonitorState := { connected := true, synced := false, lastBlock := some ⟨4, 60⟩ }

/-- Block-number query fails; the block-by-number call (made with the
missing number) nevertheless succeeds. -/
def c1CexOracle : RoundOracle :=
  { peerCount := Except.ok 3, blockNumber := Except.error "rpc error",
    blockByNumber := fun _ => Except.ok ⟨5, 100⟩,
    etherscanBlockNumber := Except.ok 7 }

def c1WitState : MonitorState := { connected := true, synced := true, lastBlock := some ⟨9, 30⟩ }

def c1WitOracle : RoundOracle :=
  { peerCount := Except.ok 2, blockNumber := Except.error "no number",
    blockByNumber := fun _ => Except.error "missing number",
    etherscanBlockNumber := Except.ok 12 }

def c2Cfg : Config := { syncThreshold := 5 }

def c2CexState : MonitorState := { connected := true, synced := false, lastBlock := none }

/-- Every sub-query succeeds and the lag is zero, so the round is error-free
and `synced` flips from `false` to `true`. -/
def c2CexTick : TickOracle :=
  { round := { peerCount := Except.ok 8, blockNumber := Except.ok 500,
               blockByNumber := fun _ => Except.ok ⟨500, 1000⟩,
               etherscanBlockNumber := Except.ok 500 },
    setup := { chain := Except.ok "foundation" } }

def c2WitState : MonitorState := { connected := true, synced := false, lastBlock := none }

/-- The peer query fails (so the round has a non-empty error) while the lag
computation still runs and flips `synced`. -/
def c2WitTick : TickOracle :=
  { round := { peerCount := Except.error "peer query failed", blockNumber := Except.ok 500,
               blockByNumber := fun _ => Except.ok ⟨500, 1000⟩,
               etherscanBlockNumber := Except.ok 500 },
    setup := { chain := Except.ok "foundation" } }

def c3Cfg : Config := { syncThreshold := 5 }

def c3State : MonitorState := { connected := true, synced := true, lastBlock := none }

def c3Tick : TickOracle :=
  { round := { peerCount := Except.ok 9, blockNumber := Except.ok 300,
               blockByNumber := fun _ => Except.ok ⟨300, 40⟩,
               etherscanBlockNumber := Except.ok 300 },
    setup := { chain := Except.ok "foundation" } }

def c4Cfg : Config := { syncThreshold := 7 }

def c4State : MonitorState := { connected := true, synced := false, lastBlock := none }

/-- Local block 10, explorer block 17: lag exactly the threshold 7. -/
def c4OracleAt : RoundOracle :=
  { peerCount := Except.ok 1, blockNumber := Except.ok 10,
    blockByNumber := fun _ => Except.ok ⟨10, 5⟩,
    etherscanBlockNumber := Except.ok 17 }

/-- Local block 10, explorer block 18: lag is threshold + 1. -/
def c4OracleOver : RoundOracle :=
  { peerCount := Except.ok 1, blockNumber := Except.ok 10,
    blockByNumber := fun _ => Except.ok ⟨10, 5⟩,
    etherscanBlockNumber := Except.ok 18 }

def c5Cfg : Config := { syncThreshold := 3 }

def c5State : MonitorState := { connected := false, synced := true, lastBlock := some ⟨7, 20⟩ }

def c5Tick : TickOracle :=
  { round := { peerCount := Except.ok 1, blockNumber := Except.ok 1,
               blockByNumber := fun _ => Except.ok ⟨1, 1⟩,
               etherscanBlockNumber := Except.ok 1 },
    setup := { chain := Except.ok "foundation" } }

def c8Cfg : Config := { syncThreshold := 5 }

def c8State : MonitorState := { connected := true, synced := true, lastBlock := none }

/-- The spec's scenario: node at block 80, explorer at block 120. -/
def c8Oracle : RoundOracle :=
  { peerCount := Except.ok 25, blockNumber := Except.ok 80,
    blockByNumber := fun _ => Except.error "block fetch failed",
    etherscanBlockNumber := Except.ok 120 }

def c9Cfg : Config := { syncThreshold := 5 }

def c9State : MonitorState := { connected := true, synced := true, lastBlock := some ⟨99, 50⟩ }

/-- A connection-refused error text produced by the explorer query, not by
the node transport. -/
def c9Msg : String := "Get https://api.etherscan.io/api: dial tcp: connect: connection refused"

def c9Tick : TickOracle :=
  { round := { peerCount := Except.ok 5, blockNumber := Except.ok 100,
               blockByNumber := fun _ => Except.ok ⟨100, 95⟩,
               etherscanBlockNumber := Except.error c9Msg },
    setup := { chain := Except.ok "foundation" } }

def c10Cfg : Config := { syncThreshold := 2 }

def c10StateUp : MonitorState := { connected := true, synced := true, lastBlock := some ⟨40, 10⟩ }

def c10StateDown : MonitorState := { connected := false, synced := true, lastBlock := some ⟨41, 12⟩ }

def c10Msg : String := "dial tcp 127.0.0.1:8545: connect: connection refused"

/-- The peer query fails with a connection-refused text, so the round
triggers the connected-to-disconnected transition while the rest of the
round still updated `lastBlock` and `synced`. -/
def c10Tick : TickOracle :=
  { round := { peerCount := Except.error c10Msg, blockNumber := Except.ok 42,
               blockByNumber := fun _ => Except.ok ⟨42, 15⟩,
               etherscanBlockNumber := Except.ok 44 },
    setup := { chain := Except.error "connection error" } }

/-! ### Characterization of the four `gatherMetrics` steps -/

theorem gatherPeers_eq (o : RoundOracle) (a : RoundAcc) :
    gatherPeers o a =
      { a with calls := a.calls ++ [Call.peersCall],
               errors := a.errors ++ errOf o.peerCount,
               gauges := a.gauges ++ (match o.peerCount with
                 | Except.ok p => [GaugeEvent.mk "peers" p]
                 | Except.error _ => []) } := by
  cases hp : o.peerCount <;> simp [gatherPeers, errOf, hp]

theorem gatherBlockNumber_eq (o : RoundOracle) (a : RoundAcc) (ha : a.blockNumber = none) :
    gatherBlockNumber o a =
      { a with calls := a.calls ++ [Call.blockNumberCall],
               errors := a.errors ++ errOf o.blockNumber,
               gauges := a.gauges ++ (match o.blockNumber with
                 | Except.ok n => [GaugeEvent.mk "blockNumber" n]
                 | Except.error _ => []),
               blockNumber := blockNumOpt o } := by
  cases hn : o.blockNumber <;> simp [gatherBlockNumber, blockNumOpt, errOf, hn, ha]

theorem gatherBlock_eq (o : RoundOracle) (a : RoundAcc) :
    gatherBlock o a =
      { a with calls := a.calls ++ [Call.blockByNumberCall a.blockNumber],
               errors := a.errors ++ errOf (o.blockByNumber a.blockNumber),
               gauges := a.gauges ++ (match o.blockByNumber a.blockNumber, a.lastBlock with
                 | Except.ok b, some lb => [GaugeEvent.mk "blocktime" (b.timestamp - lb.timestamp)]
                 | _, _ => []),
               lastBlock := (match o.blockByNumber a.blockNumber with
                 | Except.ok b => some b
                 | Except.error _ => a.lastBlock) } := by
  cases hb : o.blockByNumber a.blockNumber <;> cases hl : a.lastBlock <;>
    simp [gatherBlock, errOf, hb, hl]

theorem gatherEtherscan_eq (cfg : Config) (o : RoundOracle) (a : RoundAcc) :
    gatherEtherscan cfg o a =
      { a with calls := a.calls ++ (match a.blockNumber with
                 | none => []
                 | some _ => [Call.etherscanCall]),
               errors := a.errors ++ (match a.blockNumber with
                 | none => []
                 | some _ => errOf o.etherscanBlockNumber),
               gauges := a.gauges ++ (match a.blockNumber, o.etherscanBlockNumber with
                 | some bn, Except.ok rn => [GaugeEvent.mk "blocksbehind" (rn - bn)]
                 | _, _ => []),
               synced := (match a.blockNumber, o.etherscanBlockNumber with
                 | some bn, Except.ok rn =>
                     if ((rn - bn).natAbs : Int) ≤ cfg.syncThreshold then true else false
                 | _, _ => a.synced) } := by
  cases hn : a.blockNumber with
  | none =>
      obtain ⟨e, g, c, b, l, sy⟩ := a
      simp only at hn
      subst hn
      simp [gatherEtherscan]
  | some bn => cases he : o.etherscanBlockNumber <;> simp [gatherEtherscan, errOf, hn, he]

/-- Full characterization of a gathering round's accumulator. -/
theorem gatherAcc_eq (cfg : Config) (s : MonitorState) (o : RoundOracle) :
    gatherAcc cfg s o =
      { errors := errOf o.peerCount ++ errOf o.blockNumber ++
                  errOf (o.blockByNumber (blockNumOpt o)) ++
                  (match blockNumOpt o with
                   | none => []
                   | some _ => errOf o.etherscanBlockNumber),
        gauges := (match o.peerCount with
                   | Except.ok p => [GaugeEvent.mk "peers" p]
                   | Except.error _ => []) ++
                  (match o.blockNumber with
                   | Except.ok n => [GaugeEvent.mk "blockNumber" n]
                   | Except.error _ => []) ++
                  (match o.blockByNumber (blockNumOpt o), s.lastBlock with
                   | Except.ok b, some lb => [GaugeEvent.mk "blocktime" (b.timestamp - lb.timestamp)]
                   | _, _ => []) ++
                  (match blockNumOpt o, o.etherscanBlockNumber with
                   | some bn, Except.ok rn => [GaugeEvent.mk "blocksbehind" (rn - bn)]
                   | _, _ => []),
        calls := [Call.peersCall, Call.blockNumberCall, Call.blockByNumberCall (blockNumOpt o)] ++
                 (match blockNumOpt o with
                  | none => []
                  | some _ => [Call.etherscanCall]),
        blockNumber := blockNumOpt o,
        lastBlock := (match o.blockByNumber (blockNumOpt o) with
                      | Except.ok b => some b
                      | Except.error _ => s.lastBlock),
        synced := (match blockNumOpt o, o.etherscanBlockNumber with
                   | some bn, Except.ok rn =>
                       if ((rn - bn).natAbs : Int) ≤ cfg.syncThreshold then true else false
                   | _, _ => s.synced) } := by
  rw [gatherAcc, gatherPeers_eq, gatherBlockNumber_eq _ _ (by simp [gatherPeers_eq, gatherInit]),
    gatherBlock_eq, gatherEtherscan_eq]
  simp [gatherInit, List.append_assoc]

/-! ### The multierror text contains each appended cause verbatim -/

theorem mem_infix_multierrorItems {msg : String} {msgs : List String} (h : msg ∈ msgs) :
    ∃ u v, u ++ msg.toList ++ v = multierrorItems msgs := by
  induction msgs with
  | nil => cases h
  | cons a as ih =>
      rcases List.mem_cons.mp h with h1 | h2
      · subst h1
        exact ⟨"\n\t* ".toList, multierrorItems as, by simp [multierrorItems]⟩
      · obtain ⟨u, v, huv⟩ := ih h2
        exact ⟨"\n\t* ".toList ++ a.toList ++ u, v,
          by simp only [multierrorItems, ← huv, List.append_assoc]⟩

theorem mem_infix_multierrorText {msg : String} {msgs : List String} (h : msg ∈ msgs) :
    msg.toList <:+: multierrorText msgs := by
  obtain ⟨u, v, huv⟩ := mem_infix_multierrorItems h
  exact ⟨"errors occurred:".toList ++ u, v ++ "\n\n".toList,
    by simp only [multierrorText, ← huv, List.append_assoc]⟩

/-! ### Claim theorems -/

/-- **C4**: for every round that reaches the lag computation (block-number and
explorer queries both succeed), `synced` is set to
`|remote - local| ≤ SyncThreshold` with an inclusive boundary: lag exactly
equal to the threshold yields `synced = true`, and lag equal to
`threshold + 1` yields `synced = false`. -/
theorem synced_threshold_inclusive (cfg : Config) (s : MonitorState) (o : RoundOracle)
    (bn rn : Int) (hbn : o.blockNumber = Except.ok bn)
    (hrn : o.etherscanBlockNumber = Except.ok rn) :
    (gatherMetrics cfg s o).state.synced =
      decide ((((rn - bn).natAbs : Int)) ≤ cfg.syncThreshold) ∧
    (((rn - bn).natAbs : Int) = cfg.syncThreshold →
      (gatherMetrics cfg s o).state.synced = true) ∧
    (((rn - bn).natAbs : Int) = cfg.syncThreshold + 1 →
      (gatherMetrics cfg s o).state.synced = false) := by
  have hs : (gatherMetrics cfg s o).state.synced = (gatherAcc cfg s o).synced := rfl
  rw [hs, gatherAcc_eq]
  simp only [blockNumOpt, hbn, hrn]
  refine ⟨?_, ?_, ?_⟩
  · by_cases hle : ((rn - bn).natAbs : Int) ≤ cfg.syncThreshold <;> simp [hle]
  · intro he
    rw [he, if_pos le_rfl]
  · intro he
    rw [he, if_neg (by omega)]

/-- Witness for C4: with threshold 7, lag exactly 7 gives `synced = true`
and lag 8 gives `synced = false`. -/
theorem synced_threshold_inclusive_witness :
    (gatherMetrics c4Cfg c4State c4OracleAt).state.synced = true ∧
    (gatherMetrics c4Cfg c4State c4OracleOver).state.synced = false :=
  ⟨(synced_threshold_inclusive c4Cfg c4State c4OracleAt 10 17 rfl rfl).2.1 (by decide),
   (synced_threshold_inclusive c4Cfg c4State c4OracleOver 10 18 rfl rfl).2.2 (by decide)⟩

/-- **C8**: whenever both the local block number and the explorer block
number are obtained, the emitted `blocksbehind` gauge carries the signed
difference `remote - local`, and the absolute value of that difference is
what the threshold comparison uses. -/
theorem blocksbehind_signed_difference (cfg : Config) (s : MonitorState) (o : RoundOracle)
    (bn rn : Int) (hbn : o.blockNumber = Except.ok bn)
    (hrn : o.etherscanBlockNumber = Except.ok rn) :
    GaugeEvent.mk "blocksbehind" (rn - bn) ∈ (gatherMetrics cfg s o).gauges ∧
    (gatherMetrics cfg s o).state.synced =
      (if ((rn - bn).natAbs : Int) ≤ cfg.syncThreshold then true else false) := by
  constructor
  · show GaugeEvent.mk "blocksbehind" (rn - bn) ∈ (gatherAcc cfg s o).gauges
    rw [gatherAcc_eq]
    simp [blockNumOpt, hbn, hrn]
  · show (gatherAcc cfg s o).synced = _
    rw [gatherAcc_eq]
    simp only [blockNumOpt, hbn, hrn]

/-- Witness for C8: node block 80, explorer block 120, threshold 5 give
`blocksbehind = 40` and `synced = false` (the spec scenario). -/
theorem blocksbehind_signed_difference_witness :
    GaugeEvent.mk "blocksbehind" 40 ∈ (gatherMetrics c8Cfg c8State c8Oracle).gauges ∧
    (gatherMetrics c8Cfg c8State c8Oracle).state.synced = false := by
  have h := blocksbehind_signed_difference c8Cfg c8State c8Oracle 80 120 rfl rfl
  exact ⟨by simpa using h.1, by simpa using h.2⟩

/-- **C6**: for every combination of sub-query outcomes, the round never
aborts early: the peer-count, block-number and block-by-number queries are
each attempted exactly once regardless of any other failure, the explorer
query is attempted exactly once whenever the block number it requires is
available (and cannot be attempted otherwise), and the aggregated error is
empty (nil) exactly when every step succeeded. -/
theorem round_no_short_circuit (cfg : Config) (s : MonitorState) (o : RoundOracle) :
    (gatherMetrics cfg s o).calls.countP isPeersCall = 1 ∧
    (gatherMetrics cfg s o).calls.countP isBlockNumberCall = 1 ∧
    (gatherMetrics cfg s o).calls.countP isBlockByNumberCall = 1 ∧
    ((gatherMetrics cfg s o).calls.countP isEtherscanCall =
      if (blockNumOpt o).isSome then 1 else 0) ∧
    ((gatherMetrics cfg s o).errors = [] ↔
      (o.peerCount.isOk ∧ o.blockNumber.isOk ∧
       (o.blockByNumber (blockNumOpt o)).isOk ∧
       ((blockNumOpt o).isSome → o.etherscanBlockNumber.isOk))) := by
  have hc : (gatherMetrics cfg s o).calls = (gatherAcc cfg s o).calls := rfl
  have he : (gatherMetrics cfg s o).errors = (gatherAcc cfg s o).errors := rfl
  rw [hc, he, gatherAcc_eq]
  cases hn : o.blockNumber with
  | error e =>
      simp only [blockNumOpt, hn]
      cases hp : o.peerCount <;> cases hb : o.blockByNumber none <;>
        cases het : o.etherscanBlockNumber <;>
          simp [isPeersCall, isBlockNumberCall, isBlockByNumberCall, isEtherscanCall,
            errOf, Except.isOk, Except.toBool, List.countP_append, List.countP_cons, hp, hb, het]
  | ok n =>
      simp only [blockNumOpt, hn]
      cases hp : o.peerCount <;> cases hb : o.blockByNumber (some n) <;>
        cases het : o.etherscanBlockNumber <;>
          simp [isPeersCall, isBlockNumberCall, isBlockByNumberCall, isEtherscanCall,
            errOf, Except.isOk, Except.toBool, List.countP_append, List.countP_cons, hp, hb, het]

/-- **C1 (amended)**: when the block-number query fails, the explorer query
is skipped (no `blocksbehind` gauge, no explorer call, `synced` unchanged);
the block-by-number query, however, is still performed, with the missing
(nil) number as its argument, and only if that call also fails is no
`blocktime` gauge emitted and `lastBlock` left unchanged. -/
theorem blockNumber_failure_skips_explorer_only (cfg : Config) (s : MonitorState)
    (o : RoundOracle) (msg : String) (hbn : o.blockNumber = Except.error msg) :
    (∀ g ∈ (gatherMetrics cfg s o).gauges, g.name ≠ "blocksbehind") ∧
    Call.etherscanCall ∉ (gatherMetrics cfg s o).calls ∧
    (gatherMetrics cfg s o).state.synced = s.synced ∧
    Call.blockByNumberCall none ∈ (gatherMetrics cfg s o).calls ∧
    (∀ e, o.blockByNumber none = Except.error e →
      ((∀ g ∈ (gatherMetrics cfg s o).gauges, g.name ≠ "blocktime") ∧
       (gatherMetrics cfg s o).state.lastBlock = s.lastBlock)) := by
  have hg : (gatherMetrics cfg s o).gauges = (gatherAcc cfg s o).gauges := rfl
  have hc : (gatherMetrics cfg s o).calls = (gatherAcc cfg s o).calls := rfl
  have hs : (gatherMetrics cfg s o).state.synced = (gatherAcc cfg s o).synced := rfl
  have hl : (gatherMetrics cfg s o).state.lastBlock = (gatherAcc cfg s o).lastBlock := rfl
  rw [hg, hc, hs, hl, gatherAcc_eq]
  simp only [blockNumOpt, hbn]
  refine ⟨?_, ?_, ?_, ?_, ?_⟩
  · cases hp : o.peerCount <;> cases hb : o.blockByNumber none <;> cases hlb : s.lastBlock <;>
      simp [hp, hb, hlb]
  · cases hp : o.peerCount <;> simp [hp]
  · trivial
  · simp
  · intro e hbb
    constructor
    · cases hp : o.peerCount <;> simp [hp, hbb]
    · simp [hbb]

/-- Counterexample to C1 as stated: the block-number query fails, yet the
block-by-number query is performed (with the missing number), and since it
succeeds here, a `blocktime` gauge is emitted and `lastBlock` is
overwritten. -/
theorem blockNumber_failure_counterexample :
    errOf c1CexOracle.blockNumber = ["rpc error"] ∧
    Call.blockByNumberCall none ∈ (gatherMetrics c1Cfg c1CexState c1CexOracle).calls ∧
    GaugeEvent.mk "blocktime" 40 ∈ (gatherMetrics c1Cfg c1CexState c1CexOracle).gauges ∧
    (gatherMetrics c1Cfg c1CexState c1CexOracle).state.lastBlock = some ⟨5, 100⟩ ∧
    c1CexState.lastBlock = some ⟨4, 60⟩ := by
  decide

/-- Witness for the amended C1: block-number query and block-by-number query
both fail, so nothing beyond the peer gauge is emitted and the state is
unchanged. -/
theorem blockNumber_failure_skips_explorer_only_witness :
    (∀ g ∈ (gatherMetrics c1Cfg c1WitState c1WitOracle).gauges, g.name ≠ "blocksbehind") ∧
    Call.etherscanCall ∉ (gatherMetrics c1Cfg c1WitState c1WitOracle).calls ∧
    (gatherMetrics c1Cfg c1WitState c1WitOracle).state.synced = c1WitState.synced ∧
    Call.blockByNumberCall none ∈ (gatherMetrics c1Cfg c1WitState c1WitOracle).calls ∧
    ((∀ g ∈ (gatherMetrics c1Cfg c1WitState c1WitOracle).gauges, g.name ≠ "blocktime") ∧
     (gatherMetrics c1Cfg c1WitState c1WitOracle).state.lastBlock = c1WitState.lastBlock) := by
  have h := blockNumber_failure_skips_explorer_only c1Cfg c1WitState c1WitOracle "no number" rfl
  exact ⟨h.1, h.2.1, h.2.2.1, h.2.2.2.1, h.2.2.2.2 "missing number" rfl⟩

/-- **C2 (amended)**: on a connected tick, the synced-state transition is
reported exactly once iff the round's aggregate error is non-empty *and* the
value changed; in particular an error-free round never reports a transition,
even when the value changed (the report sits inside the `err != nil`
branch of `Monitor.start`). -/
theorem synced_transition_reported_iff (cfg : Config) (s : MonitorState) (o : TickOracle)
    (hc : s.connected = true) :
    (handleTick cfg s o).logs.countP isStateChangedLog =
      (if (gatherMetrics cfg s o.round).errors ≠ [] ∧
          s.synced ≠ (gatherMetrics cfg s o.round).state.synced then 1 else 0) := by
  unfold handleTick
  rw [if_pos hc]
  by_cases hemp : (gatherMetrics cfg s o.round).errors.isEmpty
  · rw [if_pos hemp]
    have hnil : (gatherMetrics cfg s o.round).errors = [] := List.isEmpty_iff.mp hemp
    simp [hnil, isStateChangedLog]
  · rw [if_neg hemp]
    have hne : (gatherMetrics cfg s o.round).errors ≠ [] := by
      simpa [List.isEmpty_iff] using hemp
    by_cases hch : s.synced ≠ (gatherMetrics cfg s o.round).state.synced
    · by_cases hnd : connectionRefusedChars <:+: multierrorText (gatherMetrics cfg s o.round).errors <;>
        simp [hnd, hch, hne, isStateChangedLog, List.countP_append, List.countP_cons]
    · by_cases hnd : connectionRefusedChars <:+: multierrorText (gatherMetrics cfg s o.round).errors <;>
        simp [hnd, hch, hne, isStateChangedLog, List.countP_append, List.countP_cons]

/-- Counterexample to C2 as stated: an error-free round in which `synced`
changes from `false` to `true` produces no transition report at all. -/
theorem synced_transition_not_reported_counterexample :
    c2CexState.synced = false ∧
    (handleTick c2Cfg c2CexState c2CexTick).state.synced = true ∧
    (handleTick c2Cfg c2CexState c2CexTick).logs = [] := by
  decide

/-- Witness for the amended C2: a round with a failing peer query (non-empty
error) in which `synced` changes is reported exactly once. -/
theorem synced_transition_reported_iff_witness :
    (handleTick c2Cfg c2WitState c2WitTick).logs.countP isStateChangedLog = 1 := by
  have h := synced_transition_reported_iff c2Cfg c2WitState c2WitTick rfl
  rw [h]
  decide

/-- **C3** (evaluation at the failing input): after the cancellation event
fires, the loop handler merely logs "Monitor shutting down" and does not
return (`stop = false`), and a subsequent tick is still processed, running a
full gathering round — the loop function never returns. -/
theorem cancellation_does_not_stop_loop :
    (handleEvent c3Cfg c3State Event.done).stop = false ∧
    (runLoop c3Cfg c3State [Event.done, Event.tick c3Tick]).2.map TickOut.logs =
      [[LogEvent.shuttingDown], []] ∧
    (runLoop c3Cfg c3State [Event.done, Event.tick c3Tick]).2.map TickOut.calls =
      [[], [Call.peersCall, Call.blockNumberCall, Call.blockByNumberCall (some 300),
            Call.etherscanCall]] := by
  decide

/-- **C5**: on every tick taken while `connected = false`, no gathering round
executes — the only collaborator call is the chain query of `setupApis`, no
gauge is emitted, and `synced` and `lastBlock` are untouched — and
`connected` becomes `true` exactly when the chain query succeeds with an
identifier in the allow-set {kovan, foundation}. -/
theorem disconnected_tick_only_reconnects (cfg : Config) (s : MonitorState) (o : TickOracle)
    (hc : s.connected = false) :
    (handleTick cfg s o).calls = [Call.chainCall] ∧
    (handleTick cfg s o).gauges = [] ∧
    (handleTick cfg s o).state.synced = s.synced ∧
    (handleTick cfg s o).state.lastBlock = s.lastBlock ∧
    ((handleTick cfg s o).state.connected = true ↔
      ∃ c, o.setup.chain = Except.ok c ∧ (c = "kovan" ∨ c = "foundation")) := by
  unfold handleTick
  rw [if_neg (by simp [hc])]
  cases hch : o.setup.chain with
  | error e => simp [setupApis, hch, hc]
  | ok c =>
      by_cases hk : c = "kovan"
      · simp [setupApis, etherscanUrl, hch, hk]
      · by_cases hf : c = "foundation"
        · simp [setupApis, etherscanUrl, hch, hk, hf]
        · simp [setupApis, etherscanUrl, hch, hk, hf, hc]

/-- Witness for C5: a disconnected tick whose chain query returns
`"foundation"` makes only the chain call and reconnects. -/
theorem disconnected_tick_only_reconnects_witness :
    (handleTick c5Cfg c5State c5Tick).calls = [Call.chainCall] ∧
    (handleTick c5Cfg c5State c5Tick).gauges = [] ∧
    (handleTick c5Cfg c5State c5Tick).state.synced = c5State.synced ∧
    (handleTick c5Cfg c5State c5Tick).state.lastBlock = c5State.lastBlock ∧
    ((handleTick c5Cfg c5State c5Tick).state.connected = true ↔
      ∃ c, c5Tick.setup.chain = Except.ok c ∧ (c = "kovan" ∨ c = "foundation")) :=
  disconnected_tick_only_reconnects c5Cfg c5State c5Tick rfl

/-- **C7**: `setupConsul` under persistent failure attempts registration
exactly five times, with the fixed one-minute backoff after each failed
attempt, then stops with a final log (the function returns; the process is
not terminated); if attempt k+1 (zero-based k < 5) succeeds after k
failures, the trace is k failure cycles followed by the successful attempt
and the success log — exactly k+1 attempts and nothing further. -/
theorem setupConsul_bounded_retry (outcomes : Nat → Bool) :
    ((∀ i, outcomes i = false) →
      (setupConsul outcomes = persistentFailureTrace ∧
       attemptCount (setupConsul outcomes) = 5)) ∧
    (∀ k, k < 5 → (∀ i, i < k → outcomes i = false) → outcomes k = true →
      (setupConsul outcomes =
         (List.replicate k failCycle).flatten ++
           [ConsulEvent.attempt true, ConsulEvent.registeredLog] ∧
       attemptCount (setupConsul outcomes) = k + 1)) := by
  constructor
  · intro h
    have ht : setupConsul outcomes = persistentFailureTrace := by
      simp [setupConsul, consulRetries, setupConsulLoop, h, persistentFailureTrace, failCycle]
    refine ⟨ht, ?_⟩
    rw [ht]
    decide
  · intro k hk h1 h2
    interval_cases k
    · have ht : setupConsul outcomes =
          [ConsulEvent.attempt true, ConsulEvent.registeredLog] := by
        simp [setupConsul, consulRetries, setupConsulLoop, h2]
      exact ⟨by rw [ht]; decide, by rw [ht]; decide⟩
    · have ht : setupConsul outcomes =
          failCycle ++ [ConsulEvent.attempt true, ConsulEvent.registeredLog] := by
        simp [setupConsul, consulRetries, setupConsulLoop, failCycle, h1 0 (by omega), h2]
      exact ⟨by rw [ht]; decide, by rw [ht]; decide⟩
    · have ht : setupConsul outcomes =
          failCycle ++ failCycle ++ [ConsulEvent.attempt true, ConsulEvent.registeredLog] := by
        simp [setupConsul, consulRetries, setupConsulLoop, failCycle,
          h1 0 (by omega), h1 1 (by omega), h2, List.append_assoc]
      exact ⟨by rw [ht]; decide, by rw [ht]; decide⟩
    · have ht : setupConsul outcomes =
          failCycle ++ failCycle ++ failCycle ++
            [ConsulEvent.attempt true, ConsulEvent.registeredLog] := by
        simp [setupConsul, consulRetries, setupConsulLoop, failCycle,
          h1 0 (by omega), h1 1 (by omega), h1 2 (by omega), h2, List.append_assoc]
      exact ⟨by rw [ht]; decide, by rw [ht]; decide⟩
    · have ht : setupConsul outcomes =
          failCycle ++ failCycle ++ failCycle ++ failCycle ++
            [ConsulEvent.attempt true, ConsulEvent.registeredLog] := by
        simp [setupConsul, consulRetries, setupConsulLoop, failCycle,
          h1 0 (by omega), h1 1 (by omega), h1 2 (by omega), h1 3 (by omega), h2,
          List.append_assoc]
      exact ⟨by rw [ht]; decide, by rw [ht]; decide⟩

/-- Witness for C7: persistent failure yields the five-attempt trace with
backoffs; success on the third attempt (two prior failures) yields exactly
three attempts ending in the success log. -/
theorem setupConsul_bounded_retry_witness :
    (setupConsul (fun _ => false) = persistentFailureTrace ∧
      attemptCount (setupConsul (fun _ => false)) = 5) ∧
    (setupConsul (fun i => decide (2 ≤ i)) =
        (List.replicate 2 failCycle).flatten ++
          [ConsulEvent.attempt true, ConsulEvent.registeredLog] ∧
      attemptCount (setupConsul (fun i => decide (2 ≤ i))) = 3) :=
  ⟨(setupConsul_bounded_retry (fun _ => false)).1 (fun _ => rfl),
   (setupConsul_bounded_retry (fun i => decide (2 ≤ i))).2 2 (by omega)
     (fun i hi => by interval_cases i <;> rfl) rfl⟩

/-- **C9**: if any sub-query of a round — no matter which one, the explorer
query included — fails with a message containing the substring
"connection refused", the aggregated error's rendered text contains that
substring and the caller flips `connected` to `false`: the disconnect
decision is a substring match on the combined error text, not a typed check
that the node transport is down. -/
theorem connection_refused_substring_disconnects (cfg : Config) (s : MonitorState)
    (o : TickOracle) (msg : String) (hc : s.connected = true)
    (hm : msg ∈ (gatherMetrics cfg s o.round).errors)
    (hsub : connectionRefusedChars <:+: msg.toList) :
    (handleTick cfg s o).state.connected = false := by
  have hinf : connectionRefusedChars <:+: multierrorText (gatherMetrics cfg s o.round).errors :=
    hsub.trans (mem_infix_multierrorText hm)
  have hne : (gatherMetrics cfg s o.round).errors ≠ [] := by
    intro h0
    rw [h0] at hm
    cases hm
  have hemp : ¬((gatherMetrics cfg s o.round).errors.isEmpty = true) := by
    simpa [List.isEmpty_iff] using hne
  unfold handleTick
  rw [if_pos hc, if_neg hemp]
  simp [hinf]

set_option maxRecDepth 20000 in
/-- Witness for C9: a round in which only the *explorer* query fails, with a
connection-refused message, still flips `connected` to `false`. -/
theorem connection_refused_substring_disconnects_witness :
    (handleTick c9Cfg c9State c9Tick).state.connected = false :=
  connection_refused_substring_disconnects c9Cfg c9State c9Tick c9Msg rfl (by decide) (by decide)

/-- **C10**: the connected-to-disconnected transition mutates only the
`connected` flag: at the moment of the transition, `synced` and `lastBlock`
keep exactly the values the round just left them with; and while
disconnected, ticks never touch `synced` or `lastBlock`, so a stale
`synced = true` persists until a later successful round recomputes it. -/
theorem disconnect_transition_frame (cfg : Config) (s : MonitorState) (o : TickOracle) :
    (s.connected = true → (handleTick cfg s o).state.connected = false →
      ((handleTick cfg s o).state.synced = (gatherMetrics cfg s o.round).state.synced ∧
       (handleTick cfg s o).state.lastBlock = (gatherMetrics cfg s o.round).state.lastBlock)) ∧
    (s.connected = false →
      ((handleTick cfg s o).state.synced = s.synced ∧
       (handleTick cfg s o).state.lastBlock = s.lastBlock)) := by
  constructor
  · intro hc _hdis
    unfold handleTick
    rw [if_pos hc]
    by_cases hemp : (gatherMetrics cfg s o.round).errors.isEmpty
    · rw [if_pos hemp]
      exact ⟨rfl, rfl⟩
    · rw [if_neg hemp]
      by_cases hnd : connectionRefusedChars <:+: multierrorText (gatherMetrics cfg s o.round).errors <;>
        simp [hnd]
  · intro hc
    unfold handleTick
    rw [if_neg (by simp [hc])]
    cases hs : setupApis o.setup <;> simp

set_option maxRecDepth 20000 in
/-- Witness for C10: a round that triggers the disconnect keeps the round's
`synced` and `lastBlock`; a disconnected tick (failed reconnection) keeps
the stale `synced = true` and `lastBlock`. -/
theorem disconnect_transition_frame_witness :
    ((handleTick c10Cfg c10StateUp c10Tick).state.synced =
        (gatherMetrics c10Cfg c10StateUp c10Tick.round).state.synced ∧
      (handleTick c10Cfg c10StateUp c10Tick).state.lastBlock =
        (gatherMetrics c10Cfg c10StateUp c10Tick.round).state.lastBlock) ∧
    ((handleTick c10Cfg c10StateDown c10Tick).state.synced = c10StateDown.synced ∧
      (handleTick c10Cfg c10StateDown c10Tick).state.lastBlock = c10StateDown.lastBlock) :=
  ⟨(disconnect_transition_frame c10Cfg c10StateUp c10Tick).1 rfl (by decide),
   (disconnect_transition_frame c10Cfg c10StateDown c10Tick).2 rfl⟩

end EthereumExporter
